import Mathlib

/-!
Shallow embedding of the youtube-mcp server (Go) for checking its
natural-language specification.

Sources embedded:
- src/pkg/server/mcp_tools_official.go : tool handlers (SetupOfficialMCPTools),
  the YouTube gateway (SearchVideos, GetChannelInfo, GetVideoDetails,
  GetPlaylistItems, SearchChannels) and the credential broker
  (NewYouTubeClient, getOAuth2Client, getClient, tokenFromFile,
  getTokenFromWeb, saveToken);
- src/unnamed/part_001 : configuration loading (Config, DefaultConfig,
  LoadConfigFromJSON);
- src/cmd/server/main.go : startup error policy (log.Fatalf on a broker error).

Modelling conventions:
- Go pointer fields of the generated google.golang.org/api/youtube/v3 types
  (Snippet, Thumbnails, Medium, Id, Statistics, ContentDetails) become
  Option; dereferencing a nil pointer (a Go runtime panic) is modelled by
  an Option-valued projection returning none.
- Go int64 / uint64 counters become Int / Nat; the claims only involve the
  values 0, 10 and small negatives, far from any overflow boundary.
- encoding/json marshalling of the handler map values (map[string]interface)
  is modelled by a Json value tree; a nil Go slice marshals to JSON null
  (encoding/json behaviour), an empty-but-non-nil slice would marshal to
  an empty array, and in the handlers the accumulator slice is nil exactly
  when no item was appended.
- External effects (the network, the console, the filesystem) are oracles
  carried in a World record; log.Fatalf is a distinguished fatal outcome.
-/

namespace YoutubeMCP

/-- Json models the values produced by the Go encoding/json package when
marshalling the handler map and slice values. Object fields are listed here
in the order of the Go map literals in the source; Go itself marshals map
keys in sorted order, and nothing proved below depends on field order. -/
inductive Json where
  | null : Json
  | str : String → Json
  | num : Int → Json
  | arr : List Json → Json
  | obj : List (String × Json) → Json

/-- Json.isArr is true exactly on JSON arrays. -/
def Json.isArr : Json → Bool
  | .arr _ => true
  | _ => false

/-! ## Upstream record types (google.golang.org/api/youtube/v3)

Only the fields read by the handlers are embedded. A field that is a
pointer in the generated Go bindings is an Option here. -/

/-- Thumbnail (youtube/v3): only Url is read by the handlers. -/
structure Thumbnail where
  url : String
deriving DecidableEq, Repr

/-- ThumbnailDetails (youtube/v3): the handlers read only the Medium
thumbnail, a pointer in Go. -/
structure ThumbnailDetails where
  medium : Option Thumbnail
deriving DecidableEq, Repr

/-- ResourceId (youtube/v3): VideoId and ChannelId are plain strings. -/
structure ResourceId where
  videoId : String
  channelId : String
deriving DecidableEq, Repr

/-- SearchResultSnippet (youtube/v3): plain string fields plus the
Thumbnails pointer. -/
structure SearchResultSnippet where
  title : String
  description : String
  channelId : String
  channelTitle : String
  publishedAt : String
  thumbnails : Option ThumbnailDetails
deriving DecidableEq, Repr

/-- SearchResult (youtube/v3): Id and Snippet are pointers in Go. -/
structure SearchResult where
  id : Option ResourceId
  snippet : Option SearchResultSnippet
deriving DecidableEq, Repr

/-- VideoSnippet (youtube/v3): Tags is a Go slice ([]string); a missing
tags field is the nil slice, modelled as none (it marshals to JSON null),
while a present list is some. Thumbnails is a pointer. -/
structure VideoSnippet where
  title : String
  description : String
  channelId : String
  channelTitle : String
  publishedAt : String
  categoryId : String
  tags : Option (List String)
  thumbnails : Option ThumbnailDetails
deriving DecidableEq, Repr

/-- VideoStatistics (youtube/v3): uint64 value fields. -/
structure VideoStatistics where
  viewCount : Nat
  likeCount : Nat
  commentCount : Nat
deriving DecidableEq, Repr

/-- VideoContentDetails (youtube/v3): only Duration is read. -/
structure VideoContentDetails where
  duration : String
deriving DecidableEq, Repr

/-- Video (youtube/v3): Snippet, Statistics and ContentDetails are
pointers in Go; Id is a plain string. -/
structure Video where
  id : String
  snippet : Option VideoSnippet
  statistics : Option VideoStatistics
  contentDetails : Option VideoContentDetails
deriving DecidableEq, Repr

/-- ChannelSnippet (youtube/v3): plain strings plus the Thumbnails pointer. -/
structure ChannelSnippet where
  title : String
  description : String
  customUrl : String
  publishedAt : String
  country : String
  thumbnails : Option ThumbnailDetails
deriving DecidableEq, Repr

/-- ChannelStatistics (youtube/v3): uint64 value fields. -/
structure ChannelStatistics where
  subscriberCount : Nat
  videoCount : Nat
  viewCount : Nat
deriving DecidableEq, Repr

/-- Channel (youtube/v3): Snippet and Statistics are pointers in Go. -/
structure Channel where
  id : String
  snippet : Option ChannelSnippet
  statistics : Option ChannelStatistics
deriving DecidableEq, Repr

/-- PlaylistItemContentDetails (youtube/v3): only VideoId is read. -/
structure PlaylistItemContentDetails where
  videoId : String
deriving DecidableEq, Repr

/-- PlaylistItemSnippet (youtube/v3): plain fields (Position is int64)
plus the Thumbnails pointer. -/
structure PlaylistItemSnippet where
  title : String
  description : String
  channelId : String
  channelTitle : String
  publishedAt : String
  position : Int
  thumbnails : Option ThumbnailDetails
deriving DecidableEq, Repr

/-- PlaylistItem (youtube/v3): ContentDetails and Snippet are pointers. -/
structure PlaylistItem where
  contentDetails : Option PlaylistItemContentDetails
  snippet : Option PlaylistItemSnippet
deriving DecidableEq, Repr

/-! ## Tool argument types (mcp_tools_official.go lines 11-38)

A JSON-absent max_results decodes to the Go zero value 0, so absent and 0
coincide in the handler. -/

/-- SearchVideosArgs (mcp_tools_official.go lines 12-16). -/
structure SearchVideosArgs where
  query : String
  maxResults : Int
  channelID : String
deriving DecidableEq, Repr

/-- GetChannelInfoArgs (mcp_tools_official.go lines 19-21). -/
structure GetChannelInfoArgs where
  channelID : String
deriving DecidableEq, Repr

/-- GetVideoDetailsArgs (mcp_tools_official.go lines 24-26). -/
structure GetVideoDetailsArgs where
  videoID : String
deriving DecidableEq, Repr

/-- GetPlaylistItemsArgs (mcp_tools_official.go lines 29-32). -/
structure GetPlaylistItemsArgs where
  playlistID : String
  maxResults : Int
deriving DecidableEq, Repr

/-- SearchChannelsArgs (mcp_tools_official.go lines 35-38). -/
structure SearchChannelsArgs where
  query : String
  maxResults : Int
deriving DecidableEq, Repr

/-! ## Upstream call shapes

Each gateway method of mcp_tools_official.go builds one call against the
youtube/v3 service; these records capture exactly the parameters the code
sets on that call. -/

/-- SearchListCall: the parameters set by SearchVideos / SearchChannels
(mcp_tools_official.go lines 354-362 and 427-431). -/
structure SearchListCall where
  parts : List String
  q : String
  searchType : String
  maxResults : Int
  order : String
  channelId : Option String
deriving DecidableEq, Repr

/-- ChannelsListCall: the parameters set by GetChannelInfo
(mcp_tools_official.go lines 374-380). Note no MaxResults is set. -/
structure ChannelsListCall where
  parts : List String
  id : Option String
  mine : Bool
deriving DecidableEq, Repr

/-- VideosListCall: the parameters set by GetVideoDetails
(mcp_tools_official.go lines 396-397). Note no MaxResults is set. -/
structure VideosListCall where
  parts : List String
  id : String
deriving DecidableEq, Repr

/-- PlaylistItemsListCall: the parameters set by GetPlaylistItems
(mcp_tools_official.go lines 413-415). -/
structure PlaylistItemsListCall where
  parts : List String
  playlistId : String
  maxResults : Int
deriving DecidableEq, Repr

/-- UpstreamCall: the call a tool handler issues against the upstream
service, tagged by which youtube/v3 list endpoint it hits. -/
inductive UpstreamCall where
  | search (c : SearchListCall)
  | channels (c : ChannelsListCall)
  | videos (c : VideosListCall)
  | playlistItems (c : PlaylistItemsListCall)
deriving DecidableEq, Repr

/-- UpstreamCall.maxResultsParam extracts the MaxResults parameter carried
by the upstream call, when the call shape has one: Channels.List and
Videos.List calls built by this code set no MaxResults at all. -/
def UpstreamCall.maxResultsParam : UpstreamCall → Option Int
  | .search c => some c.maxResults
  | .playlistItems c => some c.maxResults
  | .channels _ => none
  | .videos _ => none

/-! ## Gateway call construction (mcp_tools_official.go lines 352-439) -/

/-- SearchVideosCall embeds the call built by SearchVideos
(mcp_tools_official.go lines 354-362): parts snippet, type video, order
relevance, and the channel filter only when channelID is non-empty. -/
def SearchVideosCall (query : String) (maxResults : Int) (channelID : String) :
    SearchListCall :=
  let call : SearchListCall :=
    { parts := ["snippet"], q := query, searchType := "video",
      maxResults := maxResults, order := "relevance", channelId := none }
  if channelID ≠ "" then { call with channelId := some channelID } else call

/-- GetChannelInfoCall embeds the call built by GetChannelInfo
(mcp_tools_official.go lines 374-380): lookup by id when channelID is
non-empty, otherwise Mine(true). -/
def GetChannelInfoCall (channelID : String) : ChannelsListCall :=
  let call : ChannelsListCall :=
    { parts := ["snippet", "statistics", "contentDetails"], id := none,
      mine := false }
  if channelID ≠ "" then { call with id := some channelID }
  else { call with mine := true }

/-- GetVideoDetailsCall embeds the call built by GetVideoDetails
(mcp_tools_official.go lines 396-397). -/
def GetVideoDetailsCall (videoID : String) : VideosListCall :=
  { parts := ["snippet", "statistics", "contentDetails"], id := videoID }

/-- GetPlaylistItemsCall embeds the call built by GetPlaylistItems
(mcp_tools_official.go lines 413-415). -/
def GetPlaylistItemsCall (playlistID : String) (maxResults : Int) :
    PlaylistItemsListCall :=
  { parts := ["snippet", "contentDetails"], playlistId := playlistID,
    maxResults := maxResults }

/-- SearchChannelsCall embeds the call built by SearchChannels
(mcp_tools_official.go lines 427-431): parts snippet, type channel,
order relevance. -/
def SearchChannelsCall (query : String) (maxResults : Int) : SearchListCall :=
  { parts := ["snippet"], q := query, searchType := "channel",
    maxResults := maxResults, order := "relevance", channelId := none }

/-! ## Handler argument normalization and issued calls
(mcp_tools_official.go lines 41-229) -/

/-- searchVideosIssued: the upstream call the search_videos handler issues
(mcp_tools_official.go lines 47-51): a zero max_results is replaced by 10,
then SearchVideos is called. -/
def searchVideosIssued (args : SearchVideosArgs) : UpstreamCall :=
  let args := if args.maxResults = 0 then { args with maxResults := 10 } else args
  .search (SearchVideosCall args.query args.maxResults args.channelID)

/-- getChannelInfoIssued: the upstream call the get_channel_info handler
issues (mcp_tools_official.go line 85): no default-filling, no MaxResults. -/
def getChannelInfoIssued (args : GetChannelInfoArgs) : UpstreamCall :=
  .channels (GetChannelInfoCall args.channelID)

/-- getVideoDetailsIssued: the upstream call the get_video_details handler
issues (mcp_tools_official.go line 118): no default-filling, no MaxResults. -/
def getVideoDetailsIssued (args : GetVideoDetailsArgs) : UpstreamCall :=
  .videos (GetVideoDetailsCall args.videoID)

/-- getPlaylistItemsIssued: the upstream call the get_playlist_items handler
issues (mcp_tools_official.go lines 158-162): a zero max_results is replaced
by 10. -/
def getPlaylistItemsIssued (args : GetPlaylistItemsArgs) : UpstreamCall :=
  let args := if args.maxResults = 0 then { args with maxResults := 10 } else args
  .playlistItems (GetPlaylistItemsCall args.playlistID args.maxResults)

/-- searchChannelsIssued: the upstream call the search_channels handler
issues (mcp_tools_official.go lines 197-201): a zero max_results is replaced
by 10. -/
def searchChannelsIssued (args : SearchChannelsArgs) : UpstreamCall :=
  let args := if args.maxResults = 0 then { args with maxResults := 10 } else args
  .search (SearchChannelsCall args.query args.maxResults)

/-! ## Response projection (mcp_tools_official.go lines 56-68, 90-101,
123-141, 167-180, 206-216)

Each handler builds one string-keyed map per upstream record by
dereferencing nested pointer fields without nil checks. A none here is a
Go nil-pointer dereference, i.e. a runtime panic. -/

/-- jsonOfTags: a Go nil []string slice marshals to JSON null; a present
slice marshals to an array of strings. -/
def jsonOfTags : Option (List String) → Json
  | none => Json.null
  | some l => Json.arr (l.map Json.str)

/-- searchVideoProject: the per-item map built by the search_videos handler
(mcp_tools_official.go lines 58-66); none models the panic on a nil Id,
Snippet, Thumbnails or Medium pointer. -/
def searchVideoProject (item : SearchResult) : Option Json := do
  let id ← item.id
  let sn ← item.snippet
  let th ← sn.thumbnails
  let md ← th.medium
  pure (Json.obj
    [("video_id", Json.str id.videoId),
     ("title", Json.str sn.title),
     ("description", Json.str sn.description),
     ("channel_id", Json.str sn.channelId),
     ("channel_title", Json.str sn.channelTitle),
     ("published_at", Json.str sn.publishedAt),
     ("thumbnail_url", Json.str md.url)])

/-- channelInfoProject: the map built by the get_channel_info handler
(mcp_tools_official.go lines 90-101); none models the panic on a nil
Snippet, Statistics, Thumbnails or Medium pointer. -/
def channelInfoProject (channel : Channel) : Option Json := do
  let sn ← channel.snippet
  let st ← channel.statistics
  let th ← sn.thumbnails
  let md ← th.medium
  pure (Json.obj
    [("channel_id", Json.str channel.id),
     ("title", Json.str sn.title),
     ("description", Json.str sn.description),
     ("custom_url", Json.str sn.customUrl),
     ("published_at", Json.str sn.publishedAt),
     ("country", Json.str sn.country),
     ("thumbnail_url", Json.str md.url),
     ("subscriber_count", Json.num st.subscriberCount),
     ("video_count", Json.num st.videoCount),
     ("view_count", Json.num st.viewCount)])

/-- videoDetailsProject: the map built by the get_video_details handler
(mcp_tools_official.go lines 123-141); none models the panic on a nil
Snippet, Statistics, ContentDetails, Thumbnails or Medium pointer. A nil
Tags slice stays a zero value and marshals to JSON null. -/
def videoDetailsProject (video : Video) : Option Json := do
  let st ← video.statistics
  let sn ← video.snippet
  let cd ← video.contentDetails
  let th ← sn.thumbnails
  let md ← th.medium
  pure (Json.obj
    [("video_id", Json.str video.id),
     ("title", Json.str sn.title),
     ("description", Json.str sn.description),
     ("channel_id", Json.str sn.channelId),
     ("channel_title", Json.str sn.channelTitle),
     ("published_at", Json.str sn.publishedAt),
     ("duration", Json.str cd.duration),
     ("thumbnail_url", Json.str md.url),
     ("view_count", Json.num st.viewCount),
     ("like_count", Json.num st.likeCount),
     ("comment_count", Json.num st.commentCount),
     ("tags", jsonOfTags sn.tags),
     ("category_id", Json.str sn.categoryId)])

/-- playlistItemProject: the per-item map built by the get_playlist_items
handler (mcp_tools_official.go lines 169-178); none models the panic on a
nil ContentDetails, Snippet, Thumbnails or Medium pointer. -/
def playlistItemProject (item : PlaylistItem) : Option Json := do
  let cd ← item.contentDetails
  let sn ← item.snippet
  let th ← sn.thumbnails
  let md ← th.medium
  pure (Json.obj
    [("video_id", Json.str cd.videoId),
     ("title", Json.str sn.title),
     ("description", Json.str sn.description),
     ("channel_id", Json.str sn.channelId),
     ("channel_title", Json.str sn.channelTitle),
     ("published_at", Json.str sn.publishedAt),
     ("position", Json.num sn.position),
     ("thumbnail_url", Json.str md.url)])

/-- searchChannelProject: the per-item map built by the search_channels
handler (mcp_tools_official.go lines 208-214); none models the panic on a
nil Id, Snippet, Thumbnails or Medium pointer. -/
def searchChannelProject (item : SearchResult) : Option Json := do
  let id ← item.id
  let sn ← item.snippet
  let th ← sn.thumbnails
  let md ← th.medium
  pure (Json.obj
    [("channel_id", Json.str id.channelId),
     ("title", Json.str sn.title),
     ("description", Json.str sn.description),
     ("published_at", Json.str sn.publishedAt),
     ("thumbnail_url", Json.str md.url)])

/-- marshalSlice: the listing handlers declare a nil accumulator slice and
append one element per upstream item, so the slice is nil exactly when the
item list is empty; encoding/json marshals a nil slice to JSON null and a
non-empty slice to an array. -/
def marshalSlice (xs : List Json) : Json :=
  if xs.isEmpty then Json.null else Json.arr xs

/-- projectAll models the handler loop appending one projected map per
upstream item, element-wise in upstream order; a projection panic (none)
aborts the whole call. -/
def projectAll {α : Type} (f : α → Option Json) : List α → Option (List Json)
  | [] => some []
  | x :: xs => do
    let j ← f x
    let rest ← projectAll f xs
    pure (j :: rest)

/-- searchVideosRespond: the text content built by the search_videos handler
on a successful upstream response (mcp_tools_official.go lines 56-77);
none models a projection panic. -/
def searchVideosRespond (results : List SearchResult) : Option Json := do
  let videos ← projectAll searchVideoProject results
  pure (marshalSlice videos)

/-- getPlaylistItemsRespond: the text content built by the
get_playlist_items handler on a successful upstream response
(mcp_tools_official.go lines 167-189); none models a projection panic. -/
def getPlaylistItemsRespond (items : List PlaylistItem) : Option Json := do
  let playlistItems ← projectAll playlistItemProject items
  pure (marshalSlice playlistItems)

/-- searchChannelsRespond: the text content built by the search_channels
handler on a successful upstream response (mcp_tools_official.go lines
206-225); none models a projection panic. -/
def searchChannelsRespond (results : List SearchResult) : Option Json := do
  let channels ← projectAll searchChannelProject results
  pure (marshalSlice channels)

/-! ## Gateway result handling (mcp_tools_official.go lines 352-439)

The upstream call outcome is an oracle: either a transport error string or
the response item list. Each gateway method wraps transport errors with an
operation-identifying prefix; GetChannelInfo and GetVideoDetails
additionally turn a zero-item success into a not-found error. -/

/-- GatewayErr distinguishes the two error shapes a gateway method can
produce: a wrapped transport error (fmt.Errorf with an operation prefix and
the cause) and a not-found error (fmt.Errorf with a fixed message, produced
only by the zero-item checks at lines 387-389 and 404-406). -/
inductive GatewayErr where
  | transport (op : String) (cause : String)
  | notFound (msg : String)
deriving DecidableEq, Repr

/-- resultNotFound is true exactly when a gateway result is a not-found
error (as opposed to a success or a wrapped transport error). -/
def resultNotFound {α : Type} : Except GatewayErr α → Bool
  | .error (.notFound _) => true
  | _ => false

/-- SearchVideosDo embeds the response handling of SearchVideos
(mcp_tools_official.go lines 364-369): wrap transport errors, return
response.Items otherwise. -/
def SearchVideosDo (resp : Except String (List SearchResult)) :
    Except GatewayErr (List SearchResult) :=
  match resp with
  | .error e => .error (.transport "error searching videos" e)
  | .ok items => .ok items

/-- GetChannelInfoDo embeds the response handling of GetChannelInfo
(mcp_tools_official.go lines 382-391): wrap transport errors, fail with
"channel not found" on zero items, otherwise return the first item. -/
def GetChannelInfoDo (resp : Except String (List Channel)) :
    Except GatewayErr Channel :=
  match resp with
  | .error e => .error (.transport "error getting channel info" e)
  | .ok items =>
    match items with
    | [] => .error (.notFound "channel not found")
    | c :: _ => .ok c

/-- GetVideoDetailsDo embeds the response handling of GetVideoDetails
(mcp_tools_official.go lines 399-408): wrap transport errors, fail with
"video not found" on zero items, otherwise return the first item. -/
def GetVideoDetailsDo (resp : Except String (List Video)) :
    Except GatewayErr Video :=
  match resp with
  | .error e => .error (.transport "error getting video details" e)
  | .ok items =>
    match items with
    | [] => .error (.notFound "video not found")
    | v :: _ => .ok v

/-- GetPlaylistItemsDo embeds the response handling of GetPlaylistItems
(mcp_tools_official.go lines 417-422): wrap transport errors, return
response.Items otherwise — no zero-item check. -/
def GetPlaylistItemsDo (resp : Except String (List PlaylistItem)) :
    Except GatewayErr (List PlaylistItem) :=
  match resp with
  | .error e => .error (.transport "error getting playlist items" e)
  | .ok items => .ok items

/-- SearchChannelsDo embeds the response handling of SearchChannels
(mcp_tools_official.go lines 433-438). -/
def SearchChannelsDo (resp : Except String (List SearchResult)) :
    Except GatewayErr (List SearchResult) :=
  match resp with
  | .error e => .error (.transport "error searching channels" e)
  | .ok items => .ok items

/-! ## Configuration (src/unnamed/part_001) -/

/-- Config (part_001 lines 12-26). -/
structure Config where
  youTubeAPIKey : String
  oauth2CredentialsFile : String
  tokenFile : String
  serverName : String
  serverVersion : String
  serverDescription : String
deriving DecidableEq, Repr

/-- Env models the process environment as read by os.Getenv: an unset
variable reads as the empty string, which is exactly the condition the Go
code tests. -/
structure Env where
  youtubeApiKey : String
  oauth2CredentialsFile : String
  tokenFile : String
  serverName : String
  serverVersion : String
  serverDescription : String
deriving DecidableEq, Repr

/-- DefaultConfig (part_001 lines 29-38): the API key starts from the
environment, everything else from fixed defaults. -/
def DefaultConfig (env : Env) : Config :=
  { youTubeAPIKey := env.youtubeApiKey,
    oauth2CredentialsFile := "client_secret.json",
    tokenFile := "token.json",
    serverName := "youtube-mcp-server",
    serverVersion := "1.0.0",
    serverDescription :=
      "YouTube Data API v3 MCP Server for video search, channel info, and more" }

/-- ConfigJson models the fields present in the JSON config document;
json.Unmarshal leaves a struct field unchanged when the document omits the
corresponding key. -/
structure ConfigJson where
  youtube_api_key : Option String
  oauth2_credentials_file : Option String
  token_file : Option String
  server_name : Option String
  server_version : Option String
  server_description : Option String
deriving DecidableEq, Repr

/-- unmarshalConfig models json.Unmarshal(data, config) at part_001 line 85:
keys present in the document overwrite the corresponding Config field,
absent keys leave it unchanged. -/
def unmarshalConfig (c : Config) (j : ConfigJson) : Config :=
  { youTubeAPIKey := j.youtube_api_key.getD c.youTubeAPIKey,
    oauth2CredentialsFile :=
      j.oauth2_credentials_file.getD c.oauth2CredentialsFile,
    tokenFile := j.token_file.getD c.tokenFile,
    serverName := j.server_name.getD c.serverName,
    serverVersion := j.server_version.getD c.serverVersion,
    serverDescription := j.server_description.getD c.serverDescription }

/-- ConfigFileState: the state of the JSON config file on disk. -/
inductive ConfigFileState where
  | missing
  | unreadable
  | malformed
  | valid (j : ConfigJson)
deriving DecidableEq, Repr

/-- LoadConfigFromJSON (part_001 lines 73-96): start from DefaultConfig,
return it when the file is missing, fail on read or unmarshal errors, and
after unmarshalling apply the single environment override the function
performs — YOUTUBE_API_KEY when non-empty (lines 91-93). No other
environment variable is consulted. -/
def LoadConfigFromJSON (env : Env) (file : ConfigFileState) :
    Except String Config :=
  let config := DefaultConfig env
  match file with
  | .missing => .ok config
  | .unreadable => .error "read error"
  | .malformed => .error "json unmarshal error"
  | .valid j =>
    let config := unmarshalConfig config j
    let config :=
      if env.youtubeApiKey ≠ "" then
        { config with youTubeAPIKey := env.youtubeApiKey }
      else config
    .ok config

/-! ## Credential broker (mcp_tools_official.go lines 246-350,
main.go lines 60-63)

External effects are oracles in a World: whether the youtube service
constructors succeed, the contents of the credentials and token files, and
the outcome of the interactive web exchange. log.Fatalf is a distinguished
fatal outcome: the process exits before serving. -/

/-- OAuth2Token models golang.org/x/oauth2.Token (the fields persisted by
json encoding: access token, token type, refresh token, expiry). -/
structure OAuth2Token where
  accessToken : String
  tokenType : String
  refreshToken : String
  expiry : String
deriving DecidableEq, Repr

/-- TokenFileState: the token cache file is absent (or unopenable),
present but not decodable as a token, or present holding a token. A file
written by the saveToken json encoding decodes back to the same token value
(encoding/json round-trips the plain struct fields), so a valid state
carries the token value itself. -/
inductive TokenFileState where
  | missing
  | malformed
  | valid (t : OAuth2Token)
deriving DecidableEq, Repr

/-- CredsFileState: the OAuth2 client-secret file is unreadable, readable
but rejected by google.ConfigFromJSON, or valid. Its parsed content is
never inspected by the logic under verification. -/
inductive CredsFileState where
  | unreadable
  | malformed
  | valid
deriving DecidableEq, Repr

/-- WebExchange: the outcome of the interactive authorization exchange
(getTokenFromWeb, mcp_tools_official.go lines 325-339): reading the code
from the console fails (log.Fatalf), the token-endpoint exchange fails
(log.Fatalf), or a token is obtained. -/
inductive WebExchange where
  | readCodeFails
  | exchangeFails
  | ok (t : OAuth2Token)
deriving DecidableEq, Repr

/-- World bundles the external effects the broker depends on. -/
structure World where
  apiKeyServiceOk : Bool
  credsFile : CredsFileState
  tokens : TokenFileState
  web : WebExchange
  createOk : Bool
  httpServiceOk : Bool
deriving DecidableEq, Repr

/-- tokenFromFile (mcp_tools_official.go lines 313-322): open the file and
json-decode a token; any open or decode failure is returned as an error. -/
def tokenFromFile : TokenFileState → Except String OAuth2Token
  | .missing => .error "open failed"
  | .malformed => .error "json decode failed"
  | .valid t => .ok t

/-- saveToken (mcp_tools_official.go lines 342-350): os.Create failure is
log.Fatalf (modelled as error); otherwise the file afterwards holds the
json encoding of the token, which tokenFromFile decodes back to it. -/
def saveToken (createOk : Bool) (tok : OAuth2Token) :
    Except String TokenFileState :=
  if createOk then .ok (.valid tok) else .error "Unable to cache oauth token"

/-- GetClientRun: the outcome of getClient — an error here is a log.Fatalf
message (the process exits), a success carries the token used; the run also
records whether the interactive flow ran and the token file afterwards. -/
structure GetClientRun where
  result : Except String OAuth2Token
  interactiveEntered : Bool
  tokensAfter : TokenFileState
deriving Repr

/-- getClient (mcp_tools_official.go lines 303-310): use the cached token
when tokenFromFile succeeds; on any tokenFromFile error run the interactive
exchange and save the obtained token. -/
def getClient (w : World) : GetClientRun :=
  match tokenFromFile w.tokens with
  | .ok tok =>
    { result := .ok tok, interactiveEntered := false, tokensAfter := w.tokens }
  | .error _ =>
    match w.web with
    | .readCodeFails =>
      { result := .error "Unable to read authorization code",
        interactiveEntered := true, tokensAfter := w.tokens }
    | .exchangeFails =>
      { result := .error "Unable to retrieve token from web",
        interactiveEntered := true, tokensAfter := w.tokens }
    | .ok tok =>
      match saveToken w.createOk tok with
      | .error msg =>
        { result := .error msg, interactiveEntered := true,
          tokensAfter := w.tokens }
      | .ok fs =>
        { result := .ok tok, interactiveEntered := true, tokensAfter := fs }

/-- getOAuth2Client (mcp_tools_official.go lines 287-300): read and parse
the client-secret file, failing with an error on either step; otherwise
run getClient. -/
def getOAuth2Client (w : World) : Except String GetClientRun :=
  match w.credsFile with
  | .unreadable => .error "unable to read client secret file"
  | .malformed => .error "unable to parse client secret file"
  | .valid => .ok (getClient w)

/-- AuthMode: which authenticated handle the broker produced. -/
inductive AuthMode where
  | apiKey
  | oauth2
deriving DecidableEq, Repr

/-- StartupOutcome: the broker yields a client, or returns an error to main
(which log.Fatalf-exits, main.go lines 60-63), or log.Fatalf-exits itself
from inside getTokenFromWeb / saveToken. -/
inductive StartupOutcome where
  | client (mode : AuthMode) (tok : Option OAuth2Token)
  | errReturn (msg : String)
  | fatalExit (msg : String)
deriving DecidableEq, Repr

/-- BrokerRun: outcome of NewYouTubeClient plus a trace of whether the
OAuth2 path and the interactive flow were entered, and the token file
contents afterwards. -/
structure BrokerRun where
  outcome : StartupOutcome
  oauthEntered : Bool
  interactiveEntered : Bool
  tokensAfter : TokenFileState
deriving DecidableEq, Repr

/-- NewYouTubeClient (mcp_tools_official.go lines 253-284): when the API
key is non-empty, try the API-key service; a failure there only logs, and
the OAuth2 path runs whenever no service was produced (empty key or
construction failure). -/
def NewYouTubeClient (cfg : Config) (w : World) : BrokerRun :=
  if cfg.youTubeAPIKey ≠ "" ∧ w.apiKeyServiceOk then
    { outcome := .client .apiKey none, oauthEntered := false,
      interactiveEntered := false, tokensAfter := w.tokens }
  else
    match getOAuth2Client w with
    | .error msg =>
      { outcome := .errReturn ("failed to get OAuth2 client: " ++ msg),
        oauthEntered := true, interactiveEntered := false,
        tokensAfter := w.tokens }
    | .ok run =>
      match run.result with
      | .error msg =>
        { outcome := .fatalExit msg, oauthEntered := true,
          interactiveEntered := run.interactiveEntered,
          tokensAfter := run.tokensAfter }
      | .ok tok =>
        if w.httpServiceOk then
          { outcome := .client .oauth2 (some tok), oauthEntered := true,
            interactiveEntered := run.interactiveEntered,
            tokensAfter := run.tokensAfter }
        else
          { outcome := .errReturn "failed to create YouTube service",
            oauthEntered := true, interactiveEntered := run.interactiveEntered,
            tokensAfter := run.tokensAfter }

/-- serverStarts: per main.go lines 60-63 a broker error is log.Fatalf, so
the process serves only when the broker yields a client. -/
def serverStarts : StartupOutcome → Bool
  | .client _ _ => true
  | .errReturn _ => false
  | .fatalExit _ => false

/-! ## Theorems -/

/-- C1 counterexample: the get_video_details handler passes no MaxResults
parameter downstream at all (its Videos.List call has none), so for a call
whose max_results is absent the value passed to the downstream Gateway
operation is not 10, refuting the claim for that tool. -/
theorem claim1_counterexample :
    (getVideoDetailsIssued { videoID := "dQw4w9WgXcQ" }).maxResultsParam
      ≠ some 10 := by
  decide

/-- C1 (amended): for the three tools that accept max_results
(search_videos, get_playlist_items, search_channels), a zero-or-absent
max_results makes the downstream MaxResults parameter 10; get_channel_info
and get_video_details pass no MaxResults parameter downstream at all. -/
theorem claim1_amended_maxResults_policy (q cid vid pid : String) :
    (searchVideosIssued { query := q, maxResults := 0, channelID := cid
      }).maxResultsParam = some 10 ∧
    (getPlaylistItemsIssued { playlistID := pid, maxResults := 0
      }).maxResultsParam = some 10 ∧
    (searchChannelsIssued { query := q, maxResults := 0
      }).maxResultsParam = some 10 ∧
    (getChannelInfoIssued { channelID := cid }).maxResultsParam = none ∧
    (getVideoDetailsIssued { videoID := vid }).maxResultsParam = none := by
  refine ⟨?_, ?_, ?_, ?_, ?_⟩ <;> by_cases h : cid = "" <;>
    simp [searchVideosIssued, getPlaylistItemsIssued, searchChannelsIssued,
      getChannelInfoIssued, getVideoDetailsIssued, SearchVideosCall,
      GetPlaylistItemsCall, SearchChannelsCall, GetChannelInfoCall,
      GetVideoDetailsCall, UpstreamCall.maxResultsParam, h]

/-- C10: for a strictly negative max_results, the default of 10 is not
applied (the zero test fails) and the negative value is passed unchanged as
the upstream MaxResults parameter of all three tools that set one. -/
theorem claim10_negative_maxResults (q cid pid : String) (n : Int)
    (h : n < 0) :
    (searchVideosIssued { query := q, maxResults := n, channelID := cid
      }).maxResultsParam = some n ∧
    (getPlaylistItemsIssued { playlistID := pid, maxResults := n
      }).maxResultsParam = some n ∧
    (searchChannelsIssued { query := q, maxResults := n
      }).maxResultsParam = some n := by
  have hn : ¬(n = 0) := by omega
  refine ⟨?_, ?_, ?_⟩ <;> by_cases h : cid = "" <;>
    simp [searchVideosIssued, getPlaylistItemsIssued, searchChannelsIssued,
      SearchVideosCall, GetPlaylistItemsCall, SearchChannelsCall,
      UpstreamCall.maxResultsParam, hn, h]

/-- C10 witness: the theorem applied at max_results -5. -/
theorem claim10_witness :
    (-5 : Int) < 0 ∧
    ((searchVideosIssued
        { query := "golang tutorial", maxResults := (-5), channelID := ""
          }).maxResultsParam = some (-5) ∧
     (getPlaylistItemsIssued
        { playlistID := "PLrAXtmRdnEQy4jrMVwm9wRbWqz4_0dmSh", maxResults := (-5)
          }).maxResultsParam = some (-5) ∧
     (searchChannelsIssued
        { query := "programming", maxResults := (-5)
          }).maxResultsParam = some (-5)) :=
  ⟨by decide,
   claim10_negative_maxResults "golang tutorial" ""
     "PLrAXtmRdnEQy4jrMVwm9wRbWqz4_0dmSh" (-5) (by decide)⟩

/-- C7: SearchVideos issues the upstream search with type fixed to video
and order fixed to relevance, setting the channel filter exactly when
channelID is non-empty; SearchChannels issues type channel, order
relevance, and never sets a channel filter. -/
theorem claim7_search_call_parameters (q c : String) (m : Int) :
    (SearchVideosCall q m c).searchType = "video" ∧
    (SearchVideosCall q m c).order = "relevance" ∧
    (SearchVideosCall q m c).channelId =
      (if c = "" then none else some c) ∧
    (SearchChannelsCall q m).searchType = "channel" ∧
    (SearchChannelsCall q m).order = "relevance" ∧
    (SearchChannelsCall q m).channelId = none := by
  refine ⟨?_, ?_, ?_, ?_, ?_, ?_⟩ <;>
    by_cases h : c = "" <;>
      simp [SearchVideosCall, SearchChannelsCall, h]

/-- C4: GetVideoDetails and GetChannelInfo produce a not-found error (not a
success, not a wrapped transport error) exactly when the upstream call
succeeds with zero items, while GetPlaylistItems returns the upstream item
list unchanged — an empty upstream list yields an empty list with no error,
and no zero-item check ever produces a not-found error there. -/
theorem claim4_zero_item_policy :
    (∀ resp : Except String (List Video),
      resultNotFound (GetVideoDetailsDo resp) = true ↔ resp = .ok []) ∧
    (∀ resp : Except String (List Channel),
      resultNotFound (GetChannelInfoDo resp) = true ↔ resp = .ok []) ∧
    (∀ items : List PlaylistItem,
      GetPlaylistItemsDo (.ok items) = .ok items) ∧
    (∀ resp : Except String (List PlaylistItem),
      resultNotFound (GetPlaylistItemsDo resp) = false) := by
  refine ⟨?_, ?_, ?_, ?_⟩
  · intro resp
    cases resp with
    | error e => simp [GetVideoDetailsDo, resultNotFound]
    | ok items => cases items <;> simp [GetVideoDetailsDo, resultNotFound]
  · intro resp
    cases resp with
    | error e => simp [GetChannelInfoDo, resultNotFound]
    | ok items => cases items <;> simp [GetChannelInfoDo, resultNotFound]
  · intro items
    rfl
  · intro resp
    cases resp with
    | error e => rfl
    | ok items => rfl

/-- C2 counterexample: a video record whose medium thumbnail is missing
makes the get_video_details projection dereference a nil pointer (a Go
runtime panic, modelled by none) instead of yielding a record with an
empty thumbnail field, refuting totality of the projection. -/
theorem claim2_counterexample :
    videoDetailsProject
      { id := "dQw4w9WgXcQ",
        snippet := some
          { title := "t", description := "d", channelId := "c",
            channelTitle := "ct", publishedAt := "2009-10-25",
            categoryId := "10", tags := some ["music"],
            thumbnails := some { medium := none } },
        statistics := some
          { viewCount := 1000, likeCount := 10, commentCount := 5 },
        contentDetails := some { duration := "PT3M33S" } } = none := by
  rfl

/-- C2 (amended): each projection is total in the slice-typed tags field —
the video projection on a record with any tags value (including the nil
slice) yields a well-formed result whose tags field is jsonOfTags of it,
and jsonOfTags of the nil slice is JSON null — but none of the five
projections is total in its pointer-typed nested fields: for every tool,
a record missing any one of the pointer fields that projection
dereferences (id or snippet for the two search projections, snippet or
statistics for the channel projection, snippet, statistics or
contentDetails for the video projection, contentDetails or snippet for the
playlist projection, and the thumbnails or the medium thumbnail in all
five) makes the projection dereference a nil pointer (none) instead of
producing an empty value, while each projection on a record with all its
pointer fields present yields the well-formed result. -/
theorem claim2_amended_projection_totality :
    (∀ ssn : SearchResultSnippet,
      searchVideoProject { id := none, snippet := some ssn } = none) ∧
    (∀ rid : ResourceId,
      searchVideoProject { id := some rid, snippet := none } = none) ∧
    (∀ (rid : ResourceId) (ssn : SearchResultSnippet),
      searchVideoProject
        { id := some rid, snippet := some { ssn with thumbnails := none } }
        = none) ∧
    (∀ (rid : ResourceId) (ssn : SearchResultSnippet),
      searchVideoProject
        { id := some rid,
          snippet := some { ssn with thumbnails := some { medium := none } } }
        = none) ∧
    (∀ (rid : ResourceId) (ssn : SearchResultSnippet) (md : Thumbnail),
      searchVideoProject
        { id := some rid,
          snippet := some
            { ssn with thumbnails := some { medium := some md } } }
        = some (Json.obj
            [("video_id", Json.str rid.videoId),
             ("title", Json.str ssn.title),
             ("description", Json.str ssn.description),
             ("channel_id", Json.str ssn.channelId),
             ("channel_title", Json.str ssn.channelTitle),
             ("published_at", Json.str ssn.publishedAt),
             ("thumbnail_url", Json.str md.url)])) ∧
    (∀ (cid : String) (st : ChannelStatistics),
      channelInfoProject
        { id := cid, snippet := none, statistics := some st } = none) ∧
    (∀ (cid : String) (csn : ChannelSnippet),
      channelInfoProject
        { id := cid, snippet := some csn, statistics := none } = none) ∧
    (∀ (cid : String) (csn : ChannelSnippet) (st : ChannelStatistics),
      channelInfoProject
        { id := cid, snippet := some { csn with thumbnails := none },
          statistics := some st } = none) ∧
    (∀ (cid : String) (csn : ChannelSnippet) (st : ChannelStatistics),
      channelInfoProject
        { id := cid,
          snippet := some { csn with thumbnails := some { medium := none } },
          statistics := some st } = none) ∧
    (∀ (cid : String) (csn : ChannelSnippet) (st : ChannelStatistics)
        (md : Thumbnail),
      channelInfoProject
        { id := cid,
          snippet := some
            { csn with thumbnails := some { medium := some md } },
          statistics := some st }
        = some (Json.obj
            [("channel_id", Json.str cid),
             ("title", Json.str csn.title),
             ("description", Json.str csn.description),
             ("custom_url", Json.str csn.customUrl),
             ("published_at", Json.str csn.publishedAt),
             ("country", Json.str csn.country),
             ("thumbnail_url", Json.str md.url),
             ("subscriber_count", Json.num st.subscriberCount),
             ("video_count", Json.num st.videoCount),
             ("view_count", Json.num st.viewCount)])) ∧
    (∀ (vid : String) (st : VideoStatistics) (cd : VideoContentDetails),
      videoDetailsProject
        { id := vid, snippet := none, statistics := some st,
          contentDetails := some cd } = none) ∧
    (∀ (vid : String) (vsn : VideoSnippet) (cd : VideoContentDetails),
      videoDetailsProject
        { id := vid, snippet := some vsn, statistics := none,
          contentDetails := some cd } = none) ∧
    (∀ (vid : String) (vsn : VideoSnippet) (st : VideoStatistics),
      videoDetailsProject
        { id := vid, snippet := some vsn, statistics := some st,
          contentDetails := none } = none) ∧
    (∀ (vid : String) (vsn : VideoSnippet) (st : VideoStatistics)
        (cd : VideoContentDetails),
      videoDetailsProject
        { id := vid, snippet := some { vsn with thumbnails := none },
          statistics := some st, contentDetails := some cd } = none) ∧
    (∀ (vid : String) (vsn : VideoSnippet) (st : VideoStatistics)
        (cd : VideoContentDetails),
      videoDetailsProject
        { id := vid,
          snippet := some { vsn with thumbnails := some { medium := none } },
          statistics := some st, contentDetails := some cd } = none) ∧
    (∀ (vid : String) (vsn : VideoSnippet) (st : VideoStatistics)
        (cd : VideoContentDetails) (md : Thumbnail),
      videoDetailsProject
        { id := vid,
          snippet := some
            { vsn with thumbnails := some { medium := some md } },
          statistics := some st, contentDetails := some cd }
        = some (Json.obj
            [("video_id", Json.str vid),
             ("title", Json.str vsn.title),
             ("description", Json.str vsn.description),
             ("channel_id", Json.str vsn.channelId),
             ("channel_title", Json.str vsn.channelTitle),
             ("published_at", Json.str vsn.publishedAt),
             ("duration", Json.str cd.duration),
             ("thumbnail_url", Json.str md.url),
             ("view_count", Json.num st.viewCount),
             ("like_count", Json.num st.likeCount),
             ("comment_count", Json.num st.commentCount),
             ("tags", jsonOfTags vsn.tags),
             ("category_id", Json.str vsn.categoryId)])) ∧
    jsonOfTags none = Json.null ∧
    (∀ psn : PlaylistItemSnippet,
      playlistItemProject
        { contentDetails := none, snippet := some psn } = none) ∧
    (∀ pcd : PlaylistItemContentDetails,
      playlistItemProject
        { contentDetails := some pcd, snippet := none } = none) ∧
    (∀ (pcd : PlaylistItemContentDetails) (psn : PlaylistItemSnippet),
      playlistItemProject
        { contentDetails := some pcd,
          snippet := some { psn with thumbnails := none } } = none) ∧
    (∀ (pcd : PlaylistItemContentDetails) (psn : PlaylistItemSnippet),
      playlistItemProject
        { contentDetails := some pcd,
          snippet := some { psn with thumbnails := some { medium := none } } }
        = none) ∧
    (∀ (pcd : PlaylistItemContentDetails) (psn : PlaylistItemSnippet)
        (md : Thumbnail),
      playlistItemProject
        { contentDetails := some pcd,
          snippet := some
            { psn with thumbnails := some { medium := some md } } }
        = some (Json.obj
            [("video_id", Json.str pcd.videoId),
             ("title", Json.str psn.title),
             ("description", Json.str psn.description),
             ("channel_id", Json.str psn.channelId),
             ("channel_title", Json.str psn.channelTitle),
             ("published_at", Json.str psn.publishedAt),
             ("position", Json.num psn.position),
             ("thumbnail_url", Json.str md.url)])) ∧
    (∀ ssn : SearchResultSnippet,
      searchChannelProject { id := none, snippet := some ssn } = none) ∧
    (∀ rid : ResourceId,
      searchChannelProject { id := some rid, snippet := none } = none) ∧
    (∀ (rid : ResourceId) (ssn : SearchResultSnippet),
      searchChannelProject
        { id := some rid, snippet := some { ssn with thumbnails := none } }
        = none) ∧
    (∀ (rid : ResourceId) (ssn : SearchResultSnippet),
      searchChannelProject
        { id := some rid,
          snippet := some { ssn with thumbnails := some { medium := none } } }
        = none) ∧
    (∀ (rid : ResourceId) (ssn : SearchResultSnippet) (md : Thumbnail),
      searchChannelProject
        { id := some rid,
          snippet := some
            { ssn with thumbnails := some { medium := some md } } }
        = some (Json.obj
            [("channel_id", Json.str rid.channelId),
             ("title", Json.str ssn.title),
             ("description", Json.str ssn.description),
             ("published_at", Json.str ssn.publishedAt),
             ("thumbnail_url", Json.str md.url)])) := by
  refine ⟨?_, ?_, ?_, ?_, ?_, ?_, ?_, ?_, ?_, ?_, ?_, ?_, ?_, ?_, ?_, ?_,
    rfl, ?_, ?_, ?_, ?_, ?_, ?_, ?_, ?_, ?_, ?_⟩ <;> intros <;> rfl

/-- C8 counterexample: a successful search_videos call whose upstream
response has zero items produces the JSON value null as its text content
(the nil Go slice marshals to null), which is not a JSON array, refuting
the claim for the zero-item case. -/
theorem claim8_counterexample :
    searchVideosRespond [] = some Json.null ∧
    Json.isArr Json.null = false :=
  ⟨rfl, rfl⟩

/-- C8 (amended): on a successful call, the three listing tools return a
JSON array whenever the upstream response has at least one item (and every
per-item projection succeeds), but a zero-item response yields JSON null —
the nil accumulator slice marshals to null, not an empty array. -/
theorem claim8_amended_array_or_null
    (v : SearchResult) (vs : List SearchResult) (j : Json) (js : List Json)
    (p : PlaylistItem) (ps : List PlaylistItem) (k : Json) (ks : List Json)
    (c : SearchResult) (cs : List SearchResult) (l : Json) (ls : List Json)
    (hv : searchVideoProject v = some j)
    (hvs : projectAll searchVideoProject vs = some js)
    (hp : playlistItemProject p = some k)
    (hps : projectAll playlistItemProject ps = some ks)
    (hc : searchChannelProject c = some l)
    (hcs : projectAll searchChannelProject cs = some ls) :
    searchVideosRespond [] = some Json.null ∧
    getPlaylistItemsRespond [] = some Json.null ∧
    searchChannelsRespond [] = some Json.null ∧
    searchVideosRespond (v :: vs) = some (Json.arr (j :: js)) ∧
    getPlaylistItemsRespond (p :: ps) = some (Json.arr (k :: ks)) ∧
    searchChannelsRespond (c :: cs) = some (Json.arr (l :: ls)) := by
  refine ⟨rfl, rfl, rfl, ?_, ?_, ?_⟩ <;>
    simp [searchVideosRespond, getPlaylistItemsRespond, searchChannelsRespond,
      projectAll, hv, hvs, hp, hps, hc, hcs, marshalSlice]

/-- C8 witness: the amended theorem applied to concrete fully-populated
records, each projection hypothesis discharged by evaluation. -/
theorem claim8_witness :
    searchVideoProject
      { id := some { videoId := "v1", channelId := "c1" },
        snippet := some
          { title := "t", description := "d", channelId := "c1",
            channelTitle := "ct", publishedAt := "p",
            thumbnails := some { medium := some { url := "u" } } } }
      = some (Json.obj
          [("video_id", Json.str "v1"), ("title", Json.str "t"),
           ("description", Json.str "d"), ("channel_id", Json.str "c1"),
           ("channel_title", Json.str "ct"), ("published_at", Json.str "p"),
           ("thumbnail_url", Json.str "u")]) ∧
    playlistItemProject
      { contentDetails := some { videoId := "v2" },
        snippet := some
          { title := "t2", description := "d2", channelId := "c2",
            channelTitle := "ct2", publishedAt := "p2", position := 0,
            thumbnails := some { medium := some { url := "u2" } } } }
      = some (Json.obj
          [("video_id", Json.str "v2"), ("title", Json.str "t2"),
           ("description", Json.str "d2"), ("channel_id", Json.str "c2"),
           ("channel_title", Json.str "ct2"), ("published_at", Json.str "p2"),
           ("position", Json.num 0), ("thumbnail_url", Json.str "u2")]) ∧
    searchChannelProject
      { id := some { videoId := "", channelId := "c3" },
        snippet := some
          { title := "t3", description := "d3", channelId := "c3",
            channelTitle := "ct3", publishedAt := "p3",
            thumbnails := some { medium := some { url := "u3" } } } }
      = some (Json.obj
          [("channel_id", Json.str "c3"), ("title", Json.str "t3"),
           ("description", Json.str "d3"), ("published_at", Json.str "p3"),
           ("thumbnail_url", Json.str "u3")]) ∧
    searchVideosRespond
      [{ id := some { videoId := "v1", channelId := "c1" },
         snippet := some
           { title := "t", description := "d", channelId := "c1",
             channelTitle := "ct", publishedAt := "p",
             thumbnails := some { medium := some { url := "u" } } } }]
      = some (Json.arr
          [Json.obj
            [("video_id", Json.str "v1"), ("title", Json.str "t"),
             ("description", Json.str "d"), ("channel_id", Json.str "c1"),
             ("channel_title", Json.str "ct"), ("published_at", Json.str "p"),
             ("thumbnail_url", Json.str "u")]]) := by
  refine ⟨rfl, rfl, rfl, ?_⟩
  have h := claim8_amended_array_or_null
    { id := some { videoId := "v1", channelId := "c1" },
      snippet := some
        { title := "t", description := "d", channelId := "c1",
          channelTitle := "ct", publishedAt := "p",
          thumbnails := some { medium := some { url := "u" } } } }
    []
    (Json.obj
      [("video_id", Json.str "v1"), ("title", Json.str "t"),
       ("description", Json.str "d"), ("channel_id", Json.str "c1"),
       ("channel_title", Json.str "ct"), ("published_at", Json.str "p"),
       ("thumbnail_url", Json.str "u")])
    []
    { contentDetails := some { videoId := "v2" },
      snippet := some
        { title := "t2", description := "d2", channelId := "c2",
          channelTitle := "ct2", publishedAt := "p2", position := 0,
          thumbnails := some { medium := some { url := "u2" } } } }
    []
    (Json.obj
      [("video_id", Json.str "v2"), ("title", Json.str "t2"),
       ("description", Json.str "d2"), ("channel_id", Json.str "c2"),
       ("channel_title", Json.str "ct2"), ("published_at", Json.str "p2"),
       ("position", Json.num 0), ("thumbnail_url", Json.str "u2")])
    []
    { id := some { videoId := "", channelId := "c3" },
      snippet := some
        { title := "t3", description := "d3", channelId := "c3",
          channelTitle := "ct3", publishedAt := "p3",
          thumbnails := some { medium := some { url := "u3" } } } }
    []
    (Json.obj
      [("channel_id", Json.str "c3"), ("title", Json.str "t3"),
       ("description", Json.str "d3"), ("published_at", Json.str "p3"),
       ("thumbnail_url", Json.str "u3")])
    []
    rfl rfl rfl rfl rfl rfl
  exact h.2.2.2.1

/-- C9 counterexample: with TOKEN_FILE set in the environment and a
token_file value in the JSON config file, the loaded configuration carries
the file value, not the environment value — LoadConfigFromJSON applies no
environment override for token_file. -/
theorem claim9_counterexample :
    LoadConfigFromJSON
      { youtubeApiKey := "", oauth2CredentialsFile := "",
        tokenFile := "env-token.json", serverName := "",
        serverVersion := "", serverDescription := "" }
      (.valid
        { youtube_api_key := none, oauth2_credentials_file := none,
          token_file := some "file-token.json", server_name := none,
          server_version := none, server_description := none })
      = .ok
        { youTubeAPIKey := "",
          oauth2CredentialsFile := "client_secret.json",
          tokenFile := "file-token.json",
          serverName := "youtube-mcp-server", serverVersion := "1.0.0",
          serverDescription :=
            "YouTube Data API v3 MCP Server for video search, channel info, and more" } ∧
    "file-token.json" ≠ "env-token.json" :=
  ⟨rfl, by decide⟩

/-- C9 (amended): when both environment and JSON-file values are present,
only youtube_api_key takes its environment value; the other five options
take the JSON-file value (falling back to the built-in default when the
file omits the key), their environment variables never being consulted by
the JSON loader. -/
theorem claim9_amended_env_override (env : Env) (j : ConfigJson) :
    LoadConfigFromJSON env (.valid j) = .ok
      { youTubeAPIKey :=
          if env.youtubeApiKey = "" then j.youtube_api_key.getD ""
          else env.youtubeApiKey,
        oauth2CredentialsFile :=
          j.oauth2_credentials_file.getD "client_secret.json",
        tokenFile := j.token_file.getD "token.json",
        serverName := j.server_name.getD "youtube-mcp-server",
        serverVersion := j.server_version.getD "1.0.0",
        serverDescription := j.server_description.getD
          "YouTube Data API v3 MCP Server for video search, channel info, and more" } := by
  by_cases h : env.youtubeApiKey = "" <;>
    simp [LoadConfigFromJSON, unmarshalConfig, DefaultConfig, h]

/-- C3: with a non-empty API key whose service construction succeeds, the
broker yields the API-key handle and never enters the OAuth2 path; and the
OAuth2 path is entered exactly when the API key is empty or the API-key
service construction fails. -/
theorem claim3_api_key_precedence (cfg : Config) (w : World) :
    (cfg.youTubeAPIKey ≠ "" → w.apiKeyServiceOk = true →
      (NewYouTubeClient cfg w).outcome = .client .apiKey none ∧
      (NewYouTubeClient cfg w).oauthEntered = false) ∧
    ((NewYouTubeClient cfg w).oauthEntered = true ↔
      (cfg.youTubeAPIKey = "" ∨ w.apiKeyServiceOk = false)) := by
  constructor
  · intro h1 h2
    constructor <;> simp [NewYouTubeClient, h1, h2]
  · by_cases hk : cfg.youTubeAPIKey = ""
    · simp only [NewYouTubeClient, hk]
      cases hg : getOAuth2Client w with
      | error msg => simp [hg]
      | ok run =>
        cases hr : run.result with
        | error m => simp [hg, hr]
        | ok tok =>
          by_cases hh : w.httpServiceOk <;> simp [hg, hr, hh]
    · by_cases hs : w.apiKeyServiceOk
      · simp [NewYouTubeClient, hk, hs]
      · simp only [NewYouTubeClient, hk, hs]
        cases hg : getOAuth2Client w with
        | error msg => simp [hg, hk, hs]
        | ok run =>
          cases hr : run.result with
          | error m => simp [hg, hr, hk, hs]
          | ok tok =>
            by_cases hh : w.httpServiceOk <;> simp [hg, hr, hh, hk, hs]

/-- C3 witness: a configuration holding both a non-empty API key and valid
OAuth2 credentials, with API-key service construction succeeding: the
broker yields the API-key handle without entering the OAuth2 path. -/
theorem claim3_witness :
    ((NewYouTubeClient
        { youTubeAPIKey := "AIzaKey", oauth2CredentialsFile := "client_secret.json",
          tokenFile := "token.json", serverName := "youtube-mcp-server",
          serverVersion := "1.0.0", serverDescription := "d" }
        { apiKeyServiceOk := true, credsFile := .valid, tokens := .missing,
          web := .readCodeFails, createOk := true, httpServiceOk := true
          }).outcome = .client .apiKey none) ∧
    ((NewYouTubeClient
        { youTubeAPIKey := "AIzaKey", oauth2CredentialsFile := "client_secret.json",
          tokenFile := "token.json", serverName := "youtube-mcp-server",
          serverVersion := "1.0.0", serverDescription := "d" }
        { apiKeyServiceOk := true, credsFile := .valid, tokens := .missing,
          web := .readCodeFails, createOk := true, httpServiceOk := true
          }).oauthEntered = false) :=
  (claim3_api_key_precedence _ _).1 (by decide) rfl

/-- C5 counterexample: with an existing-but-unparsable token cache, a
successful interactive exchange and working service construction, the
process starts serving — a cached-token parse failure is not fatal,
refuting the claim that it causes a fatal error before serving. -/
theorem claim5_counterexample :
    serverStarts
      (NewYouTubeClient
        { youTubeAPIKey := "", oauth2CredentialsFile := "client_secret.json",
          tokenFile := "token.json", serverName := "youtube-mcp-server",
          serverVersion := "1.0.0", serverDescription := "d" }
        { apiKeyServiceOk := false, credsFile := .valid,
          tokens := .malformed,
          web := .ok { accessToken := "at", tokenType := "Bearer",
                       refreshToken := "rt", expiry := "2026-01-01" },
          createOk := true, httpServiceOk := true }).outcome = true :=
  rfl

/-- C5 (amended): in the OAuth2 path an unreadable or malformed credentials
file and a failed interactive exchange are fatal at startup (the process
exits with an error and never serves), but a cached token file that exists
and fails to parse is not fatal: the broker re-runs the interactive flow,
overwrites the cache and, when the exchange and service construction
succeed, the process starts serving. -/
theorem claim5_amended_startup_failures
    (cf tf nm vr ds : String) (b co ho : Bool) (ts : TokenFileState)
    (wx : WebExchange) (t : OAuth2Token) :
    (NewYouTubeClient ⟨"", cf, tf, nm, vr, ds⟩
        ⟨b, .unreadable, ts, wx, co, ho⟩).outcome
      = .errReturn "failed to get OAuth2 client: unable to read client secret file" ∧
    serverStarts ((NewYouTubeClient ⟨"", cf, tf, nm, vr, ds⟩
        ⟨b, .unreadable, ts, wx, co, ho⟩).outcome) = false ∧
    (NewYouTubeClient ⟨"", cf, tf, nm, vr, ds⟩
        ⟨b, .malformed, ts, wx, co, ho⟩).outcome
      = .errReturn "failed to get OAuth2 client: unable to parse client secret file" ∧
    serverStarts ((NewYouTubeClient ⟨"", cf, tf, nm, vr, ds⟩
        ⟨b, .malformed, ts, wx, co, ho⟩).outcome) = false ∧
    (NewYouTubeClient ⟨"", cf, tf, nm, vr, ds⟩
        ⟨b, .valid, .malformed, .readCodeFails, co, ho⟩).outcome
      = .fatalExit "Unable to read authorization code" ∧
    (NewYouTubeClient ⟨"", cf, tf, nm, vr, ds⟩
        ⟨b, .valid, .malformed, .exchangeFails, co, ho⟩).outcome
      = .fatalExit "Unable to retrieve token from web" ∧
    serverStarts ((NewYouTubeClient ⟨"", cf, tf, nm, vr, ds⟩
        ⟨b, .valid, .malformed, .exchangeFails, co, ho⟩).outcome) = false ∧
    (NewYouTubeClient ⟨"", cf, tf, nm, vr, ds⟩
        ⟨b, .valid, .malformed, .ok t, true, true⟩).outcome
      = .client .oauth2 (some t) ∧
    serverStarts ((NewYouTubeClient ⟨"", cf, tf, nm, vr, ds⟩
        ⟨b, .valid, .malformed, .ok t, true, true⟩).outcome) = true ∧
    (NewYouTubeClient ⟨"", cf, tf, nm, vr, ds⟩
        ⟨b, .valid, .malformed, .ok t, true, true⟩).interactiveEntered = true ∧
    (NewYouTubeClient ⟨"", cf, tf, nm, vr, ds⟩
        ⟨b, .valid, .malformed, .ok t, true, true⟩).tokensAfter = .valid t := by
  refine ⟨rfl, rfl, rfl, rfl, rfl, rfl, rfl, rfl, rfl, rfl, rfl⟩

/-- C6: a token persisted by the broker right after the interactive
exchange is, on a subsequent startup against the same token file, parsed
successfully and used directly — the second startup yields the OAuth2
client holding that same token without entering the interactive flow,
whatever the console exchange would have produced. -/
theorem claim6_token_roundtrip
    (cf tf nm vr ds : String) (b b2 co2 : Bool) (t : OAuth2Token)
    (wx2 : WebExchange) :
    (NewYouTubeClient ⟨"", cf, tf, nm, vr, ds⟩
        ⟨b, .valid, .missing, .ok t, true, true⟩).outcome
      = .client .oauth2 (some t) ∧
    (NewYouTubeClient ⟨"", cf, tf, nm, vr, ds⟩
        ⟨b, .valid, .missing, .ok t, true, true⟩).interactiveEntered = true ∧
    (NewYouTubeClient ⟨"", cf, tf, nm, vr, ds⟩
        ⟨b2, .valid,
         (NewYouTubeClient ⟨"", cf, tf, nm, vr, ds⟩
            ⟨b, .valid, .missing, .ok t, true, true⟩).tokensAfter,
         wx2, co2, true⟩).outcome = .client .oauth2 (some t) ∧
    (NewYouTubeClient ⟨"", cf, tf, nm, vr, ds⟩
        ⟨b2, .valid,
         (NewYouTubeClient ⟨"", cf, tf, nm, vr, ds⟩
            ⟨b, .valid, .missing, .ok t, true, true⟩).tokensAfter,
         wx2, co2, true⟩).interactiveEntered = false := by
  refine ⟨rfl, rfl, ?_, ?_⟩ <;> cases wx2 <;> rfl

end YoutubeMCP
